import Mathlib

/-!
Verification of the background-removal API core (`src/remover/views.py` and
the upload validator it uses) against its specification.

The handler's external collaborators — PIL's `Image.open` and `Image.save`
and `rembg.remove` — are modelled as an environment of functions that either
return a value or raise an exception; the handler itself is embedded
statement by statement, and every call it makes to a collaborator is
recorded in a trace so that claims about which calls happen (and with which
arguments) can be stated.
-/

namespace RemoveBg

/-- A byte string: the contents of an upload or of an encoded image, one
natural number per byte. -/
abbrev Bytes := List Nat

/-- An uploaded file as the request parser presents it: a declared name, a
declared content type, and the actual byte stream (the tests build these as
`SimpleUploadedFile(name, data, content_type)`). -/
structure UploadedFile where
  name : String
  content_type : String
  bytes : Bytes
deriving DecidableEq

/-- An in-memory decoded raster image as `PIL.Image.open` yields it: the
detected `format` attribute (`none` when PIL cannot determine the format)
together with the raster data. -/
structure Img where
  format : Option String
  pixels : Bytes
deriving DecidableEq

/-- An exception raised inside the handler's `try` block: either PIL's
`UnidentifiedImageError`, or any other exception carrying its `str(e)`
text. -/
inductive Exc where
  | unidentifiedImage
  | other (msg : String)
deriving DecidableEq

/-- A response body: raw bytes (Django `HttpResponse`), a field-keyed
validation-error mapping (`serializer.errors`), or one of the two JSON error
objects built in views.py. -/
inductive Body where
  | bytes (b : Bytes)
  | fieldErrors (errs : List (String × List String))
  | errorMsg (error : String)
  | errorDetails (error details : String)
deriving DecidableEq

/-- An HTTP response: status code, the content type when one is set
explicitly (`HttpResponse(..., content_type="image/png")`; DRF `Response`
objects leave it to content negotiation, modelled as `none`), and the
body. -/
structure Response where
  status : Nat
  content_type : Option String
  body : Body
deriving DecidableEq

/-- The external collaborators of views.py: `PIL.Image.open`, `Image.save`
(re-encoding into a fresh in-memory buffer, returning that buffer's
contents), and `rembg.remove`. Each may return a value or raise an
exception. -/
structure Env where
  openImage : Bytes → Except Exc Img
  saveImage : Img → String → Except Exc Bytes
  remove : Bytes → Except Exc Bytes

/-- One call made by the handler to an external collaborator, recorded in
the order the calls happen. -/
inductive Event where
  | openCall (arg : Bytes)
  | saveCall (fmt : String)
  | removeCall (arg : Bytes)
deriving DecidableEq

/-- Line 23 of views.py:
`image_format = input_image.format if input_image.format else "PNG"`.
Python truthiness: both `None` and the empty string select the `"PNG"`
default. -/
def pyFormat : Option String → String
  | none => "PNG"
  | some s => if s = "" then "PNG" else s

/-- Modelled from the spec: `ImageUploadSerializer` lives in
`src/remover/serializers.py`, which is not under src/ (only views.py and the
tests reference it). Spec §4.1: Rule 1 — if no `image` field is present,
fail with a structured validation error keyed by field name; Rule 2 — if
the byte length of the upload exceeds a fixed configured maximum, fail with
a structured validation error, independent of whether the bytes form a
valid image; on success the validated upload is returned unchanged, with no
transformation and no decoding. -/
def ImageUploadSerializer.validate (maxSize : Nat) (data : Option UploadedFile) :
    Except (List (String × List String)) UploadedFile :=
  match data with
  | none => .error [("image", ["No file was submitted."])]
  | some f =>
      if f.bytes.length > maxSize then
        .error [("image", ["The uploaded image exceeds the maximum allowed size."])]
      else
        .ok f

/-- The two `except` clauses of views.py (lines 33-42): an
`UnidentifiedImageError` maps to 400 with the invalid-image message; any
other `Exception as e` maps to 500 with the fixed message and `str(e)` as
details. The clauses dispatch on the exception's type, wherever in the
`try` block it was raised. -/
def excResponse : Exc → Response
  | .unidentifiedImage =>
      ⟨400, none, .errorMsg "The uploaded file is not a valid image."⟩
  | .other msg =>
      ⟨500, none, .errorDetails "Failed to process image." msg⟩

/-- `RemoveBackgroundView.post` (views.py lines 14-44), with every call to
an external collaborator recorded in a trace. The serializer is consulted
first; on validation failure the field-keyed errors are returned with
status 400 and nothing else runs. Otherwise the validated upload's bytes
are opened, the detected format (defaulting to PNG) is chosen, the image is
re-saved into a fresh buffer, and `remove` is called on the buffer's
contents; its output is returned verbatim as a 200 `image/png` response.
Any exception raised along the way is translated by `excResponse`. -/
def RemoveBackgroundView.post (env : Env) (maxSize : Nat)
    (data : Option UploadedFile) : Response × List Event :=
  match ImageUploadSerializer.validate maxSize data with
  | .error errs => (⟨400, none, .fieldErrors errs⟩, [])
  | .ok f =>
      match env.openImage f.bytes with
      | .error e => (excResponse e, [.openCall f.bytes])
      | .ok input_image =>
          let image_format := pyFormat input_image.format
          match env.saveImage input_image image_format with
          | .error e =>
              (excResponse e, [.openCall f.bytes, .saveCall image_format])
          | .ok image_bytes =>
              match env.remove image_bytes with
              | .error e =>
                  (excResponse e,
                   [.openCall f.bytes, .saveCall image_format,
                    .removeCall image_bytes])
              | .ok output_bytes =>
                  (⟨200, some "image/png", .bytes output_bytes⟩,
                   [.openCall f.bytes, .saveCall image_format,
                    .removeCall image_bytes])

/-- The decode-then-re-encode normalization of views.py lines 21-27 in
isolation: open the bytes, detect the format (defaulting to PNG), and
re-save the decoded image into a fresh buffer in that format. -/
def normalize (env : Env) (b : Bytes) : Except Exc Bytes :=
  match env.openImage b with
  | .error e => .error e
  | .ok img => env.saveImage img (pyFormat img.format)

/-- The whole processing stage after validation, as a single fallible
computation: normalize the upload, then hand the canonical bytes to the
removal function. -/
def pipeline (env : Env) (b : Bytes) : Except Exc Bytes :=
  match normalize env b with
  | .error e => .error e
  | .ok c => env.remove c

/-- A file system: named files with byte contents. -/
abbrev FS := List (String × Bytes)

/-- views.py threaded over an explicit file-system state. Every intermediate
value of the handler — the validated upload, the decoded image, the
`io.BytesIO` buffer the image is re-saved into, and the removal output — is
an in-memory value, and no statement of the handler performs a file
operation, so each step passes the file-system state through unchanged. -/
def RemoveBackgroundView.postFS (env : Env) (maxSize : Nat)
    (data : Option UploadedFile) (fs : FS) : (Response × List Event) × FS :=
  match ImageUploadSerializer.validate maxSize data with
  | .error errs => ((⟨400, none, .fieldErrors errs⟩, []), fs)
  | .ok f =>
      match env.openImage f.bytes with
      | .error e => ((excResponse e, [.openCall f.bytes]), fs)
      | .ok input_image =>
          let image_format := pyFormat input_image.format
          match env.saveImage input_image image_format with
          | .error e =>
              ((excResponse e, [.openCall f.bytes, .saveCall image_format]), fs)
          | .ok image_bytes =>
              match env.remove image_bytes with
              | .error e =>
                  ((excResponse e,
                    [.openCall f.bytes, .saveCall image_format,
                     .removeCall image_bytes]), fs)
              | .ok output_bytes =>
                  ((⟨200, some "image/png", .bytes output_bytes⟩,
                    [.openCall f.bytes, .saveCall image_format,
                     .removeCall image_bytes]), fs)

/-- An HTTP method. -/
inductive Method where
  | GET | POST | PUT | PATCH | DELETE | HEAD | OPTIONS
deriving DecidableEq

/-- From views.py lines 13-14: `RemoveBackgroundView(APIView)` defines
exactly one HTTP-method handler, `post`. -/
def RemoveBackgroundView.handlers : List Method := [Method.POST]

/-- Modelled from the spec: the framework's method dispatch does not live
under src/ (it belongs to the web framework; views.py only declares the
`post` handler). Spec §6: one route, method POST only; GET and other
methods must not be handled by this endpoint (405, or 404 if routing hides
the method entirely). A method with a declared handler is dispatched to it;
any other method receives 405. -/
def dispatch (env : Env) (maxSize : Nat) (data : Option UploadedFile)
    (m : Method) : Response :=
  if m ∈ RemoveBackgroundView.handlers then
    (RemoveBackgroundView.post env maxSize data).1
  else
    ⟨405, none, .errorMsg "Method not allowed."⟩

/-- A concrete, executable instantiation of the PIL decoder, used to
evaluate the theorems on concrete inputs: bytes starting with 1 decode as a
PNG-tagged image, bytes starting with 2 as a JPEG-tagged image, bytes
starting with 3 as an image whose format PIL cannot determine; anything
else fails to decode. -/
def toyOpen : Bytes → Except Exc Img
  | 1 :: rest => .ok ⟨some "PNG", rest⟩
  | 2 :: rest => .ok ⟨some "JPEG", rest⟩
  | 3 :: rest => .ok ⟨none, rest⟩
  | _ => .error .unidentifiedImage

/-- A concrete re-encoder matching `toyOpen`: PNG output is tagged with a
leading 1, anything else with a leading 2. -/
def toySave (img : Img) (fmt : String) : Except Exc Bytes :=
  .ok ((if fmt = "PNG" then 1 else 2) :: img.pixels)

/-- A concrete removal function that always succeeds, returning its input
unchanged. -/
def toyRemove : Bytes → Except Exc Bytes := fun b => .ok b

/-- The benign concrete environment: decoding, re-encoding and removal all
behave. -/
def toyEnv : Env := ⟨toyOpen, toySave, toyRemove⟩

/-- A concrete environment whose re-encoding step raises
`UnidentifiedImageError`. -/
def envSaveUnidentified : Env :=
  ⟨toyOpen, fun _ _ => .error .unidentifiedImage, toyRemove⟩

/-- A concrete environment whose removal function raises
`UnidentifiedImageError` (as `rembg.remove` can, since it decodes its input
internally). -/
def envRemoveUnidentified : Env :=
  ⟨toyOpen, toySave, fun _ => .error .unidentifiedImage⟩

/-- A concrete environment whose removal function raises a generic
exception with text "boom", as in the tests. -/
def envRemoveBoom : Env := ⟨toyOpen, toySave, fun _ => .error (.other "boom")⟩

/-- A concrete well-formed PNG upload for the toy decoder. -/
def pngUpload : UploadedFile := ⟨"test.png", "image/png", [1, 7, 8]⟩

/-- A concrete non-image upload that lies about its content type, as in the
spec's scenario: a text file declared as `image/png`. -/
def textUpload : UploadedFile := ⟨"not_image.txt", "image/png", [9, 9]⟩

/-- The same bytes as `textUpload` under a different declared name and
content type. -/
def textUpload2 : UploadedFile := ⟨"other.bin", "text/plain", [9, 9]⟩

/-- A concrete upload whose format the toy decoder cannot determine, so the
handler re-encodes it as PNG and the canonical bytes differ from the raw
upload bytes. -/
def rawUpload : UploadedFile := ⟨"raw.bin", "application/octet-stream", [3, 5]⟩

/-- Structural lemma shared by the claims: on a validated upload the
response is determined by the verdict of the processing pipeline — an
exception is translated by `excResponse`, a success becomes the 200
`image/png` response carrying the removal output. -/
theorem post_response_eq_pipeline (env : Env) (maxSize : Nat)
    (f : UploadedFile) (hsize : ¬ f.bytes.length > maxSize) :
    (RemoveBackgroundView.post env maxSize (some f)).1 =
      match pipeline env f.bytes with
      | .error e => excResponse e
      | .ok out => ⟨200, some "image/png", .bytes out⟩ := by
  simp only [RemoveBackgroundView.post, pipeline, normalize,
    ImageUploadSerializer.validate, if_neg hsize]
  cases h1 : env.openImage f.bytes with
  | error e => rfl
  | ok img =>
      cases h2 : env.saveImage img (pyFormat img.format) with
      | error e => simp [h2]
      | ok c =>
          cases h3 : env.remove c with
          | error e => simp [h2, h3]
          | ok out => simp [h2, h3]

/-- C1: for every valid image upload — one that passes validation and whose
bytes decode and re-encode successfully — when the removal function returns
bytes `B`, the handler's response is exactly status 200 with content type
image/png and body equal to `B`, for every byte string `B`, with the
returned bytes neither inspected nor modified. -/
theorem C1_success_returns_removal_bytes (env : Env) (maxSize : Nat)
    (f : UploadedFile) (img : Img) (c B : Bytes)
    (hsize : ¬ f.bytes.length > maxSize)
    (hopen : env.openImage f.bytes = .ok img)
    (hsave : env.saveImage img (pyFormat img.format) = .ok c)
    (hrem : env.remove c = .ok B) :
    (RemoveBackgroundView.post env maxSize (some f)).1 =
      ⟨200, some "image/png", Body.bytes B⟩ := by
  simp only [RemoveBackgroundView.post, ImageUploadSerializer.validate,
    if_neg hsize, hopen, hsave, hrem]

/-- Witness for C1: in the benign concrete environment, the concrete PNG
upload yields exactly the removal function's output bytes with status 200
and content type image/png. -/
theorem C1_witness :
    ¬ pngUpload.bytes.length > 100 ∧
    toyEnv.openImage pngUpload.bytes = .ok ⟨some "PNG", [7, 8]⟩ ∧
    toyEnv.saveImage ⟨some "PNG", [7, 8]⟩ (pyFormat (some "PNG")) =
      .ok [1, 7, 8] ∧
    toyEnv.remove [1, 7, 8] = .ok [1, 7, 8] ∧
    (RemoveBackgroundView.post toyEnv 100 (some pngUpload)).1 =
      ⟨200, some "image/png", Body.bytes [1, 7, 8]⟩ :=
  ⟨by decide, rfl, rfl, rfl,
   C1_success_returns_removal_bytes toyEnv 100 pngUpload ⟨some "PNG", [7, 8]⟩
     [1, 7, 8] [1, 7, 8] (by decide) rfl rfl rfl⟩

/-- Counterexample to C2 as stated: with a decodable upload whose re-encode
step raises `UnidentifiedImageError`, decoding itself succeeds, yet the
handler answers 400 — a post-validation runtime failure that is not a decode
failure and is nevertheless not classified as a server error. -/
theorem C2_counterexample :
    envSaveUnidentified.openImage pngUpload.bytes = .ok ⟨some "PNG", [7, 8]⟩ ∧
    (RemoveBackgroundView.post envSaveUnidentified 100 (some pngUpload)).1 =
      ⟨400, none, Body.errorMsg "The uploaded file is not a valid image."⟩ :=
  ⟨rfl, rfl⟩

/-- C2 (amended): on a validated upload, a decode failure yields 400 with
the single invalid-image message and the removal function is never called;
any other exception raised anywhere in the processing pipeline yields 500 —
except that an `UnidentifiedImageError` raised after a successful decode
(by the re-encode or the removal call) also yields the 400 invalid-image
response, because the handler classifies failures by exception type, not by
stage. -/
theorem C2_error_classification (env : Env) (maxSize : Nat)
    (f : UploadedFile) (hsize : ¬ f.bytes.length > maxSize) :
    (env.openImage f.bytes = .error .unidentifiedImage →
      (RemoveBackgroundView.post env maxSize (some f)).1 =
        ⟨400, none, Body.errorMsg "The uploaded file is not a valid image."⟩ ∧
      (RemoveBackgroundView.post env maxSize (some f)).2 =
        [Event.openCall f.bytes]) ∧
    (∀ msg, pipeline env f.bytes = .error (.other msg) →
      (RemoveBackgroundView.post env maxSize (some f)).1 =
        ⟨500, none, Body.errorDetails "Failed to process image." msg⟩) ∧
    (pipeline env f.bytes = .error .unidentifiedImage →
      (RemoveBackgroundView.post env maxSize (some f)).1 =
        ⟨400, none, Body.errorMsg "The uploaded file is not a valid image."⟩) := by
  refine ⟨fun h => ⟨?_, ?_⟩, fun msg h => ?_, fun h => ?_⟩
  · simp [RemoveBackgroundView.post, ImageUploadSerializer.validate,
      if_neg hsize, h, excResponse]
  · simp [RemoveBackgroundView.post, ImageUploadSerializer.validate,
      if_neg hsize, h]
  · rw [post_response_eq_pipeline env maxSize f hsize, h]; rfl
  · rw [post_response_eq_pipeline env maxSize f hsize, h]; rfl

/-- Witness for C2 (amended): the concrete text upload fails to decode in
the benign environment, and the instantiated classification holds. -/
theorem C2_witness :
    ¬ textUpload.bytes.length > 100 ∧
    ((toyEnv.openImage textUpload.bytes = .error .unidentifiedImage →
      (RemoveBackgroundView.post toyEnv 100 (some textUpload)).1 =
        ⟨400, none, Body.errorMsg "The uploaded file is not a valid image."⟩ ∧
      (RemoveBackgroundView.post toyEnv 100 (some textUpload)).2 =
        [Event.openCall textUpload.bytes]) ∧
    (∀ msg, pipeline toyEnv textUpload.bytes = .error (.other msg) →
      (RemoveBackgroundView.post toyEnv 100 (some textUpload)).1 =
        ⟨500, none, Body.errorDetails "Failed to process image." msg⟩) ∧
    (pipeline toyEnv textUpload.bytes = .error .unidentifiedImage →
      (RemoveBackgroundView.post toyEnv 100 (some textUpload)).1 =
        ⟨400, none, Body.errorMsg "The uploaded file is not a valid image."⟩)) :=
  ⟨by decide, C2_error_classification toyEnv 100 textUpload (by decide)⟩

/-- Counterexample to C3 as stated: the removal function raises an error
(an `UnidentifiedImageError`, as `rembg.remove` can raise since it decodes
its input internally) on a valid image upload, yet the response is the 400
invalid-image response, not the claimed 500. -/
theorem C3_counterexample :
    envRemoveUnidentified.remove [1, 7, 8] = .error .unidentifiedImage ∧
    (RemoveBackgroundView.post envRemoveUnidentified 100 (some pngUpload)).1 =
      ⟨400, none, Body.errorMsg "The uploaded file is not a valid image."⟩ :=
  ⟨rfl, rfl⟩

/-- C3 (amended): for a valid image upload, when the removal function — or
the re-encoding step — raises any exception other than
`UnidentifiedImageError`, the response is 500 with `error` = "Failed to
process image." and `details` equal to the exception's text; an
`UnidentifiedImageError` raised by either step instead produces the 400
invalid-image response. -/
theorem C3_removal_failure (env : Env) (maxSize : Nat) (f : UploadedFile)
    (img : Img)
    (hsize : ¬ f.bytes.length > maxSize)
    (hopen : env.openImage f.bytes = .ok img) :
    (∀ c msg, env.saveImage img (pyFormat img.format) = .ok c →
      env.remove c = .error (.other msg) →
      (RemoveBackgroundView.post env maxSize (some f)).1 =
        ⟨500, none, Body.errorDetails "Failed to process image." msg⟩) ∧
    (∀ msg, env.saveImage img (pyFormat img.format) = .error (.other msg) →
      (RemoveBackgroundView.post env maxSize (some f)).1 =
        ⟨500, none, Body.errorDetails "Failed to process image." msg⟩) ∧
    (∀ c, env.saveImage img (pyFormat img.format) = .ok c →
      env.remove c = .error .unidentifiedImage →
      (RemoveBackgroundView.post env maxSize (some f)).1 =
        ⟨400, none, Body.errorMsg "The uploaded file is not a valid image."⟩) := by
  refine ⟨fun c msg hsave hrem => ?_, fun msg hsave => ?_,
    fun c hsave hrem => ?_⟩
  · simp [RemoveBackgroundView.post, ImageUploadSerializer.validate,
      if_neg hsize, hopen, hsave, hrem, excResponse]
  · simp [RemoveBackgroundView.post, ImageUploadSerializer.validate,
      if_neg hsize, hopen, hsave, excResponse]
  · simp [RemoveBackgroundView.post, ImageUploadSerializer.validate,
      if_neg hsize, hopen, hsave, hrem, excResponse]

/-- Witness for C3 (amended): in the concrete environment whose removal
function raises a generic exception with text "boom", the PNG upload gets
the 500 response with those details. -/
theorem C3_witness :
    ¬ pngUpload.bytes.length > 100 ∧
    envRemoveBoom.openImage pngUpload.bytes = .ok ⟨some "PNG", [7, 8]⟩ ∧
    ((∀ c msg,
      envRemoveBoom.saveImage ⟨some "PNG", [7, 8]⟩
          (pyFormat (some "PNG")) = .ok c →
      envRemoveBoom.remove c = .error (.other msg) →
      (RemoveBackgroundView.post envRemoveBoom 100 (some pngUpload)).1 =
        ⟨500, none, Body.errorDetails "Failed to process image." msg⟩) ∧
    (∀ msg, envRemoveBoom.saveImage ⟨some "PNG", [7, 8]⟩
          (pyFormat (some "PNG")) = .error (.other msg) →
      (RemoveBackgroundView.post envRemoveBoom 100 (some pngUpload)).1 =
        ⟨500, none, Body.errorDetails "Failed to process image." msg⟩) ∧
    (∀ c, envRemoveBoom.saveImage ⟨some "PNG", [7, 8]⟩
          (pyFormat (some "PNG")) = .ok c →
      envRemoveBoom.remove c = .error .unidentifiedImage →
      (RemoveBackgroundView.post envRemoveBoom 100 (some pngUpload)).1 =
        ⟨400, none, Body.errorMsg "The uploaded file is not a valid image."⟩)) :=
  ⟨by decide, rfl,
   C3_removal_failure envRemoveBoom 100 pngUpload ⟨some "PNG", [7, 8]⟩
     (by decide) rfl⟩

/-- C4: a request missing the `image` field, and a request whose upload
exceeds the configured maximum byte length — whatever the bytes are and
whatever the decoder would say about them — both receive 400 with a
field-keyed structured validation error, and no external call at all is
made, so in particular no decode of the bytes is ever attempted. -/
theorem C4_validation_rejects (env : Env) (maxSize : Nat) :
    RemoveBackgroundView.post env maxSize none =
      (⟨400, none,
        Body.fieldErrors [("image", ["No file was submitted."])]⟩, []) ∧
    ∀ f : UploadedFile, f.bytes.length > maxSize →
      RemoveBackgroundView.post env maxSize (some f) =
        (⟨400, none, Body.fieldErrors
          [("image",
            ["The uploaded image exceeds the maximum allowed size."])]⟩,
         []) := by
  refine ⟨rfl, fun f h => ?_⟩
  simp [RemoveBackgroundView.post, ImageUploadSerializer.validate, h]

/-- Witness for C4: with the ceiling set to 1 byte, the concrete PNG upload
— which the concrete decoder accepts as a valid image — is rejected as
oversized with an empty call trace, and the empty request is rejected for
the missing field. -/
theorem C4_witness :
    pngUpload.bytes.length > 1 ∧
    toyEnv.openImage pngUpload.bytes = .ok ⟨some "PNG", [7, 8]⟩ ∧
    RemoveBackgroundView.post toyEnv 1 (some pngUpload) =
      (⟨400, none, Body.fieldErrors
        [("image",
          ["The uploaded image exceeds the maximum allowed size."])]⟩,
       []) ∧
    RemoveBackgroundView.post toyEnv 1 none =
      (⟨400, none,
        Body.fieldErrors [("image", ["No file was submitted."])]⟩, []) :=
  ⟨by decide, rfl,
   (C4_validation_rejects toyEnv 1).2 pngUpload (by decide),
   (C4_validation_rejects toyEnv 1).1⟩

/-- C5: on every validated upload that decodes successfully and re-encodes
to canonical bytes `c` (in the detected format, defaulting to PNG when
undetectable), the handler's call trace is exactly: open the raw bytes,
save in the chosen format, call the removal function — and every argument
ever passed to the removal function equals `c`, never the raw upload
bytes unless they coincide. -/
theorem C5_removal_gets_canonical_bytes (env : Env) (maxSize : Nat)
    (f : UploadedFile) (img : Img) (c : Bytes)
    (hsize : ¬ f.bytes.length > maxSize)
    (hopen : env.openImage f.bytes = .ok img)
    (hsave : env.saveImage img (pyFormat img.format) = .ok c) :
    (RemoveBackgroundView.post env maxSize (some f)).2 =
      [Event.openCall f.bytes, Event.saveCall (pyFormat img.format),
       Event.removeCall c] ∧
    ∀ a, Event.removeCall a ∈
        (RemoveBackgroundView.post env maxSize (some f)).2 → a = c := by
  have ht : (RemoveBackgroundView.post env maxSize (some f)).2 =
      [Event.openCall f.bytes, Event.saveCall (pyFormat img.format),
       Event.removeCall c] := by
    simp only [RemoveBackgroundView.post, ImageUploadSerializer.validate,
      if_neg hsize, hopen, hsave]
    cases h3 : env.remove c with
    | error e => rfl
    | ok out => rfl
  refine ⟨ht, fun a ha => ?_⟩
  rw [ht] at ha
  simp only [List.mem_cons, List.not_mem_nil, or_false] at ha
  rcases ha with h | h | h
  · exact absurd h (by simp)
  · exact absurd h (by simp)
  · exact (Event.removeCall.injEq a c).mp h

/-- Witness for C5: the concrete upload with undetectable format is
re-encoded as PNG and the removal function receives the canonical bytes
`[1, 5]`, not the raw upload bytes `[3, 5]`. -/
theorem C5_witness :
    ¬ rawUpload.bytes.length > 100 ∧
    toyEnv.openImage rawUpload.bytes = .ok ⟨none, [5]⟩ ∧
    toyEnv.saveImage ⟨none, [5]⟩ (pyFormat none) = .ok [1, 5] ∧
    ([1, 5] ≠ rawUpload.bytes) ∧
    ((RemoveBackgroundView.post toyEnv 100 (some rawUpload)).2 =
      [Event.openCall rawUpload.bytes, Event.saveCall (pyFormat none),
       Event.removeCall [1, 5]] ∧
     ∀ a, Event.removeCall a ∈
        (RemoveBackgroundView.post toyEnv 100 (some rawUpload)).2 →
       a = [1, 5]) :=
  ⟨by decide, rfl, rfl, by decide,
   C5_removal_gets_canonical_bytes toyEnv 100 rawUpload ⟨none, [5]⟩ [1, 5]
     (by decide) rfl rfl⟩

/-- C6: the declared name and declared content type of an upload are
informational only — two requests carrying identical bytes produce
identical responses and identical call traces, whatever their declared
metadata; in particular a non-image upload declared as `image/png` still
gets 400, because classification decodes the actual bytes. -/
theorem C6_metadata_irrelevant (env : Env) (maxSize : Nat)
    (f g : UploadedFile) (h : f.bytes = g.bytes) :
    RemoveBackgroundView.post env maxSize (some f) =
      RemoveBackgroundView.post env maxSize (some g) ∧
    (¬ f.bytes.length > maxSize →
      env.openImage f.bytes = .error .unidentifiedImage →
      (RemoveBackgroundView.post env maxSize (some f)).1.status = 400) := by
  constructor
  · simp only [RemoveBackgroundView.post, ImageUploadSerializer.validate, h]
    by_cases hg : g.bytes.length > maxSize
    · simp [hg]
    · simp [hg, h]
  · intro h1 h2
    simp [RemoveBackgroundView.post, ImageUploadSerializer.validate,
      if_neg h1, h2, excResponse]

/-- Witness for C6: the concrete text bytes uploaded once as
`not_image.txt` with content type `image/png` and once as `other.bin` with
content type `text/plain` — same bytes, different metadata — produce the
same response, and it is a 400. -/
theorem C6_witness :
    textUpload.bytes = textUpload2.bytes ∧
    textUpload.name ≠ textUpload2.name ∧
    textUpload.content_type ≠ textUpload2.content_type ∧
    textUpload.content_type = "image/png" ∧
    (RemoveBackgroundView.post toyEnv 100 (some textUpload) =
      RemoveBackgroundView.post toyEnv 100 (some textUpload2) ∧
    (¬ textUpload.bytes.length > 100 →
      toyEnv.openImage textUpload.bytes = .error .unidentifiedImage →
      (RemoveBackgroundView.post toyEnv 100 (some textUpload)).1.status =
        400)) :=
  ⟨rfl, by decide, by decide, rfl,
   C6_metadata_irrelevant toyEnv 100 textUpload textUpload2 rfl⟩

/-- C7: the handler is total — for every request payload and every
behaviour of the external collaborators, exactly one response is produced
(the handler is a function into responses) and its status is 200, 400 or
500; no exception escapes the handler. -/
theorem C7_one_response_status (env : Env) (maxSize : Nat)
    (data : Option UploadedFile) :
    (RemoveBackgroundView.post env maxSize data).1.status = 200 ∨
    (RemoveBackgroundView.post env maxSize data).1.status = 400 ∨
    (RemoveBackgroundView.post env maxSize data).1.status = 500 := by
  cases hv : ImageUploadSerializer.validate maxSize data with
  | error errs =>
      right; left; simp [RemoveBackgroundView.post, hv]
  | ok f =>
      cases h1 : env.openImage f.bytes with
      | error e =>
          cases e <;> simp [RemoveBackgroundView.post, hv, h1, excResponse]
      | ok img =>
          cases h2 : env.saveImage img (pyFormat img.format) with
          | error e =>
              cases e <;>
                simp [RemoveBackgroundView.post, hv, h1, h2, excResponse]
          | ok c =>
              cases h3 : env.remove c with
              | error e =>
                  cases e <;>
                    simp [RemoveBackgroundView.post, hv, h1, h2, h3,
                      excResponse]
              | ok out =>
                  left
                  simp [RemoveBackgroundView.post, hv, h1, h2, h3]

/-- C8: handling a request leaves the file system untouched — the handler
threaded over an explicit file-system state returns exactly the response
and trace of the pure handler together with the unchanged state, on every
request and under every behaviour of the collaborators. -/
theorem C8_no_file_writes (env : Env) (maxSize : Nat)
    (data : Option UploadedFile) (fs : FS) :
    RemoveBackgroundView.postFS env maxSize data fs =
      (RemoveBackgroundView.post env maxSize data, fs) := by
  cases hv : ImageUploadSerializer.validate maxSize data with
  | error errs => simp [RemoveBackgroundView.postFS, RemoveBackgroundView.post, hv]
  | ok f =>
      cases h1 : env.openImage f.bytes with
      | error e =>
          simp [RemoveBackgroundView.postFS, RemoveBackgroundView.post, hv, h1]
      | ok img =>
          cases h2 : env.saveImage img (pyFormat img.format) with
          | error e =>
              simp [RemoveBackgroundView.postFS, RemoveBackgroundView.post,
                hv, h1, h2]
          | ok c =>
              cases h3 : env.remove c with
              | error e =>
                  simp [RemoveBackgroundView.postFS,
                    RemoveBackgroundView.post, hv, h1, h2, h3]
              | ok out =>
                  simp [RemoveBackgroundView.postFS,
                    RemoveBackgroundView.post, hv, h1, h2, h3]

/-- C9: the view declares a handler only for POST, so the dispatcher sends
every non-POST method — GET included — to the method-not-allowed response:
the status is 405 (or 404 when routing hides the method, which this
dispatcher never needs). -/
theorem C9_non_post_method_rejected (env : Env) (maxSize : Nat)
    (data : Option UploadedFile) (m : Method) (h : m ≠ Method.POST) :
    (dispatch env maxSize data m).status = 405 ∨
    (dispatch env maxSize data m).status = 404 := by
  left
  have hm : m ∉ RemoveBackgroundView.handlers := by
    simp [RemoveBackgroundView.handlers, h]
  simp [dispatch, hm]

/-- Witness for C9: a GET request to the route receives 405 or 404. -/
theorem C9_witness :
    Method.GET ≠ Method.POST ∧
    ((dispatch toyEnv 100 none Method.GET).status = 405 ∨
     (dispatch toyEnv 100 none Method.GET).status = 404) :=
  ⟨by decide, C9_non_post_method_rejected toyEnv 100 none Method.GET (by decide)⟩

/-- The concrete codec round-trips PNG output: re-opening a buffer that was
saved as PNG yields an image that records format PNG and re-saves to the
identical buffer. -/
theorem toyEnv_png_roundtrip :
    ∀ img c, toyEnv.saveImage img "PNG" = .ok c →
      ∃ img2, toyEnv.openImage c = .ok img2 ∧ img2.format = some "PNG" ∧
        toyEnv.saveImage img2 "PNG" = .ok c := by
  intro img c h
  simp only [toyEnv, toySave, if_pos rfl, Except.ok.injEq] at h
  subst h
  exact ⟨⟨some "PNG", img.pixels⟩, rfl, rfl, rfl⟩

/-- C10: when the external codec round-trips its own PNG output (re-opening
a saved PNG buffer gives back an image that saves to the same buffer —
the contract PIL satisfies), the decode-then-save normalization is
idempotent on its own PNG output: an upload whose bytes are exactly the
canonical PNG bytes `b` produced by normalizing some upload renormalizes to
`b` itself, so the removal function receives bytes equal to the uploaded
bytes. -/
theorem C10_normalize_idempotent (env : Env) (maxSize : Nat)
    (Hrt : ∀ img c, env.saveImage img "PNG" = .ok c →
      ∃ img2, env.openImage c = .ok img2 ∧ img2.format = some "PNG" ∧
        env.saveImage img2 "PNG" = .ok c)
    (b0 b : Bytes) (img0 : Img) (f : UploadedFile)
    (hopen : env.openImage b0 = .ok img0)
    (hfmt : pyFormat img0.format = "PNG")
    (hsave : env.saveImage img0 "PNG" = .ok b)
    (hfb : f.bytes = b)
    (hsize : ¬ b.length > maxSize) :
    normalize env b0 = .ok b ∧
    normalize env b = .ok b ∧
    (RemoveBackgroundView.post env maxSize (some f)).2 =
      [Event.openCall b, Event.saveCall "PNG", Event.removeCall b] := by
  obtain ⟨img2, h2open, h2fmt, h2save⟩ := Hrt img0 b hsave
  have hfmt2 : pyFormat img2.format = "PNG" := by rw [h2fmt]; rfl
  refine ⟨?_, ?_, ?_⟩
  · simp [normalize, hopen, hfmt, hsave]
  · simp [normalize, h2open, hfmt2, h2save]
  · simp only [RemoveBackgroundView.post, ImageUploadSerializer.validate,
      hfb, if_neg hsize, h2open, hfmt2, h2save]
    cases h3 : env.remove b with
    | error e => simp [h3]
    | ok out => simp [h3]

/-- Witness for C10: normalizing the concrete upload `[3, 6]` (format
undetectable, so PNG is chosen) produces `[1, 6]`; uploading those
canonical bytes renormalizes them to themselves, and the removal function
receives exactly the uploaded bytes. -/
theorem C10_witness :
    toyEnv.openImage [3, 6] = .ok ⟨none, [6]⟩ ∧
    pyFormat (none : Option String) = "PNG" ∧
    toyEnv.saveImage ⟨none, [6]⟩ "PNG" = .ok [1, 6] ∧
    (normalize toyEnv [3, 6] = .ok [1, 6] ∧
     normalize toyEnv [1, 6] = .ok [1, 6] ∧
     (RemoveBackgroundView.post toyEnv 100
        (some ⟨"c10.png", "image/png", [1, 6]⟩)).2 =
       [Event.openCall [1, 6], Event.saveCall "PNG",
        Event.removeCall [1, 6]]) :=
  ⟨rfl, rfl, rfl,
   C10_normalize_idempotent toyEnv 100 toyEnv_png_roundtrip [3, 6] [1, 6]
     ⟨none, [6]⟩ ⟨"c10.png", "image/png", [1, 6]⟩ rfl rfl rfl rfl
     (by decide)⟩

end RemoveBg
